import Mathlib

/-!
Shallow embedding of the qci-api Python client (files qci/api.py and
qci/classes.py) together with proofs that settle the specification claims
about it.

Conventions used throughout:
  * Python strings are Lean String values; the Python truth test on a string
    (for example "if start_date:") is the test against the empty string.
  * Code that can raise returns Except PyError; an implicit "return None" is
    the value Except.ok Option.none.
  * The network is mocked: a function that reads an HTTP response takes the
    response body as an explicit argument, and a function that performs a
    POST reports the requests it issued in a trace field.
-/

/-- The Python exception classes that the source can raise. -/
inductive PyError where
  | valueError (msg : String)
  | typeError (msg : String)
  | attributeError (msg : String)
  | keyError (key : String)
deriving Repr, DecidableEq

/-- A JSON object as this client reads it: a flat list of string-valued
fields, looked up by key exactly as a Python dict subscript does. -/
abbrev Json := List (String × String)

/-- The DataPackage class of qci/classes.py.  Its init stores the three
constructor arguments in the instance attributes with a leading underscore;
these fields are that instance dictionary. -/
structure DataPackage where
  _access_token : String
  _primary_id : String
  _secondary_id : String
deriving Repr, DecidableEq

/-- A call DataPackage(access_token, primary_id, secondary_id) through the
Python call protocol.  In the source, init has no default value for
secondary_id, so a call that omits it (secondary_id = none here) raises
TypeError before the body ever runs; a call that supplies it runs the body,
which stores the three arguments. -/
def DataPackage_new (access_token primary_id : String)
    (secondary_id : Option String) : Except PyError DataPackage :=
  match secondary_id with
  | some s => .ok { _access_token := access_token, _primary_id := primary_id,
                    _secondary_id := s }
  | none => .error (.typeError
      "DataPackage.init missing 1 required positional argument: secondary_id")

/-- Python attribute lookup on a DataPackage instance: the instance
dictionary holds _access_token, _primary_id and _secondary_id (set by init),
and the class defines the single property access_token.  Any other name -
in particular primary_id - raises AttributeError. -/
def DataPackage.getattr (self : DataPackage) (name : String) :
    Except PyError String :=
  if name = "_access_token" then .ok self._access_token
  else if name = "_primary_id" then .ok self._primary_id
  else if name = "_secondary_id" then .ok self._secondary_id
  else if name = "access_token" then .ok self._access_token
  else .error (.attributeError ("DataPackage object has no attribute " ++ name))

/-- The access_token property: returns self._access_token. -/
def DataPackage.access_token (self : DataPackage) : String :=
  self._access_token

/-- DataPackage.to_xml: starts from the empty string, appends
self._primary_id to it, and returns the result. -/
def DataPackage.to_xml (self : DataPackage) : String :=
  let datapackage_xml := ""
  let datapackage_xml := datapackage_xml ++ self._primary_id
  datapackage_xml

/-- DataPackage.validate(debug).  The source tests "not self.access_token"
twice in a row (the second test is reached only when the first was false, so
its branch is dead); in the debug branch it raises ValueError with a message
interpolating self.primary_id - and that attribute lookup itself raises
before the ValueError can be built, which the inner match propagates.
Falling off the end of the body is the Python implicit return None, the
value .ok none; "return False" is .ok (some false). -/
def DataPackage.validate (self : DataPackage) (debug : Bool) :
    Except PyError (Option Bool) :=
  if DataPackage.access_token self = "" then
    (if debug then
      match DataPackage.getattr self "primary_id" with
      | .error e => .error e
      | .ok pid => .error (.valueError
          ("DataPackage for ID " ++ pid ++
           " failed validation (no access token set)"))
    else .ok (some false))
  else if DataPackage.access_token self = "" then
    (if debug then
      match DataPackage.getattr self "primary_id" with
      | .error e => .error e
      | .ok pid => .error (.valueError
          ("DataPackage for ID " ++ pid ++
           " failed validation (no access token set)"))
    else .ok (some false))
  else .ok none

/-- DataPackage str dunder: returns self.primary_id, so the attribute
lookup decides the outcome. -/
def DataPackage.str (self : DataPackage) : Except PyError String :=
  DataPackage.getattr self "primary_id"

/-- The fixed base URL of the remote service (api.py). -/
def BASE_URL : String := "https://api.ingenuity.com/"

/-- urllib.parse.urljoin, specialized to the calls this repository makes:
the base is always BASE_URL (scheme, host, and a bare "/" path) and the
second argument always begins with "/", an absolute path, for which urljoin
keeps the scheme and host of the base and replaces its path.  Dropping the
final slash of the base and concatenating computes exactly that. -/
def urljoin (base url : String) : String :=
  String.mk base.data.dropLast ++ url

/-- An HTTP GET request as this client builds one: a URL and headers. -/
structure GetRequest where
  url : String
  headers : List (String × String)
deriving Repr, DecidableEq

/-- An HTTP POST request as this client builds one. -/
structure PostRequest where
  url : String
  headers : List (String × String)
  files : List (String × String)
deriving Repr, DecidableEq

/-- get_access_token(client_id, client_secret) with the GET mocked: resp is
the JSON body of the token endpoint response.  The function builds the
request, then returns the subscript access_token of the parsed response; a
missing field is the Python KeyError. -/
def get_access_token (client_id client_secret : String) (resp : Json) :
    Except PyError String :=
  let _api_url := urljoin BASE_URL "/v1/oauth/access_token"
  let _payload := [("grant_type", "client_credentials"),
                   ("client_id", client_id),
                   ("client_secret", client_secret)]
  match resp.lookup "access_token" with
  | some v => .ok v
  | none => .error (.keyError "access_token")

/-- The argument of upload_datapackage as the isinstance check sees it:
either an actual DataPackage instance or any other Python value (carrying
its printed form, used in the error message). -/
inductive PyObj where
  | datapackage (dp : DataPackage)
  | other (shown : String)
deriving Repr, DecidableEq

/-- validate_datapackage (api.py): raises ValueError when the argument is
not a DataPackage instance, and otherwise does nothing (checks neither the
access token nor the identifiers). -/
def validate_datapackage (datapackage : PyObj) : Except PyError Unit :=
  match datapackage with
  | .datapackage _ => .ok ()
  | .other shown => .error (.valueError
      ("DataPackage failed validation (not a DataPackage): " ++ shown))

/-- tempfile.mkstemp(pre, suf): creates a fresh temporary file and returns
the pair of the OS-level integer file descriptor and the file path.  The
concrete values are irrelevant to every claim; what matters is the shape of
the result: the first component is a plain int, not a file object. -/
def mkstemp (pre suf : String) : Int × String :=
  (3, "/tmp/" ++ pre ++ "a1b2c3" ++ suf)

/-- Attribute lookup on a Python int.  upload_datapackage looks up write
(and, in code after that, read) on the integer file descriptor returned by
mkstemp; an int defines neither attribute, so the lookup raises
AttributeError and never yields a value - hence the success type Empty. -/
def int_attr (_n : Int) (name : String) : Except PyError Empty :=
  .error (.attributeError ("int object has no attribute " ++ name))

/-- The outcome of one upload_datapackage call: its result (return value or
raised exception) and the trace of POST requests it actually issued. -/
structure UploadRun where
  result : Except PyError Json
  posts : List PostRequest
deriving Repr

/-- upload_datapackage (api.py): builds the packages URL, runs
validate_datapackage, calls tempfile.mkstemp, and then evaluates
datapackage_fd.write - an attribute lookup on the int file descriptor,
performed before the argument datapackage.to_xml() is evaluated.  That
lookup raises, so every statement after it (the fd.read, the requests.post
and the resp.json() return) is unreachable: int_attr has success type
Empty, and the impossible success branch is eliminated.  No POST is ever
recorded in the trace. -/
def upload_datapackage (datapackage : PyObj) : UploadRun :=
  let _api_url := urljoin BASE_URL "/v1/datapackages"
  match validate_datapackage datapackage with
  | .error e => { result := .error e, posts := [] }
  | .ok _ =>
    let fd_path := mkstemp "QCI_DP_" ".zip"
    let datapackage_fd := fd_path.1
    match int_attr datapackage_fd "write" with
    | .error e => { result := .error e, posts := [] }
    | .ok ab => ab.elim

/-- The URL that list_tests builds (api.py): the clinical endpoint with the
state parameter always interpolated into the template, and each of the
other three parameters appended only when its argument passes the Python
string truth test, that is, when it is non-empty. -/
def list_tests_url (state start_date end_date sort_by : String) : String :=
  let api_url := urljoin BASE_URL ("/v1/clinical?state=" ++ state)
  let api_url := if start_date ≠ "" then
    api_url ++ "&startReceivedDate=" ++ start_date else api_url
  let api_url := if end_date ≠ "" then
    api_url ++ "&endReceivedDate=" ++ end_date else api_url
  let api_url := if sort_by ≠ "" then
    api_url ++ "&sort=" ++ sort_by else api_url
  api_url

/-- list_tests(access_token, state, start_date, end_date, sort_by): the GET
request it performs.  The response handling is resp.json() unchanged, so
the request is the whole observable behaviour. -/
def list_tests (access_token state start_date end_date sort_by : String) :
    GetRequest :=
  { url := list_tests_url state start_date end_date sort_by,
    headers := [("Authorization", "Bearer " ++ access_token)] }

/-- A calendar date standing for datetime.now(). -/
structure Date where
  year : Nat
  month : Nat
  day : Nat
deriving Repr, DecidableEq

/-- Decimal rendering of n, zero-padded on the left to width w. -/
def natPad (w n : Nat) : String :=
  let s := toString n
  String.mk (List.replicate (w - s.length) '0') ++ s

/-- datetime.strftime with the format %Y-%m-%d: four-digit year, two-digit
month and day, separated by hyphens. -/
def strftime_Ymd (d : Date) : String :=
  natPad 4 d.year ++ "-" ++ natPad 2 d.month ++ "-" ++ natPad 2 d.day

/-- One file written to disk: its path and its bytes. -/
structure FileWrite where
  path : String
  content : List Nat
deriving Repr, DecidableEq

/-- The outcome of one get_report_pdf call: the GET request it performs,
the file it writes, and the path it returns. -/
structure ReportRun where
  request : GetRequest
  written : FileWrite
  returned : String
deriving Repr, DecidableEq

/-- os.path.abspath relative to the current working directory cwd. -/
def os_path_abspath (cwd p : String) : String :=
  if p.startsWith "/" then p else cwd ++ "/" ++ p

/-- get_report_pdf(access_token, qci_id, output_pdf_filename) with the GET
mocked (resp_content is the binary body) and the ambient state explicit
(cwd the working directory, today the value of datetime.now()).  When
output_pdf_filename fails the Python string truth test - it is empty, as it
is when the caller omits the argument, whose default is the empty string -
the name is rebuilt as qci_id, an underscore, the current date in
yyyy-mm-dd, and the .pdf extension.  The response bytes are written to that
file and its absolute path is returned. -/
def get_report_pdf (cwd : String) (today : Date)
    (access_token qci_id : String) (resp_content : List Nat)
    (output_pdf_filename : String) : ReportRun :=
  let api_url := urljoin BASE_URL
    ("/v1/export/" ++ qci_id ++ "?view=" ++ "pdf" ++ "&access_token=" ++
     access_token)
  let headers := [("Authorization", "Bearer " ++ access_token)]
  let output_pdf_filename := if output_pdf_filename = "" then
    qci_id ++ "_" ++ strftime_Ymd today ++ ".pdf" else output_pdf_filename
  { request := { url := api_url, headers := headers },
    written := { path := output_pdf_filename, content := resp_content },
    returned := os_path_abspath cwd output_pdf_filename }

/-- The access_token property read, with the receiver as the method body
leaves it.  The property body only reads self._access_token; the source
assigns to instance attributes in init alone, so the receiver comes back as
it went in. -/
def access_token_run (self : DataPackage) : String × DataPackage :=
  (DataPackage.access_token self, self)

/-- to_xml, with the receiver as the method body leaves it: the body builds
a local string from self._primary_id and assigns no attribute. -/
def to_xml_run (self : DataPackage) : String × DataPackage :=
  (DataPackage.to_xml self, self)

/-- validate, with the receiver as the method body leaves it: the body only
reads self.access_token and self.primary_id and assigns no attribute. -/
def validate_run (self : DataPackage) (debug : Bool) :
    Except PyError (Option Bool) × DataPackage :=
  (DataPackage.validate self debug, self)

/-- The str dunder, with the receiver as the method body leaves it: the
body only reads self.primary_id and assigns no attribute. -/
def str_run (self : DataPackage) : Except PyError String × DataPackage :=
  (DataPackage.str self, self)

/-- upload_datapackage on a DataPackage argument, with the package as the
call leaves it: the call reads the package through isinstance only (the
attribute lookup on the int file descriptor raises before
datapackage.to_xml() is evaluated) and assigns no attribute of it. -/
def upload_run (dp : DataPackage) : UploadRun × DataPackage :=
  (upload_datapackage (PyObj.datapackage dp), dp)

/-- Split a character list at every occurrence of sep, like the split of a
query string at ampersands.  Never returns the empty list. -/
def splitCh (sep : Char) : List Char → List (List Char)
  | [] => [[]]
  | c :: cs =>
    let r := splitCh sep cs
    if c = sep then [] :: r else (c :: r.headD []) :: r.tail

/-- The characters of a URL after its first question mark: its query
string. -/
def queryChars (url : String) : List Char :=
  (url.data.dropWhile (fun c => c != '?')).tail

/-- The query parameter keys of a URL, in order: split the query string at
ampersands and keep each piece up to its first equals sign. -/
def paramKeys (url : String) : List String :=
  (splitCh '&' (queryChars url)).map
    (fun p => String.mk (p.takeWhile (fun c => c != '=')))

/-- One query parameter as characters: key, equals sign, value. -/
def blockData (k : String) (v : List Char) : List Char :=
  k.data ++ '=' :: v

/-- Further query parameters, each preceded by an ampersand. -/
def tailBlocks : List (String × List Char) → List Char
  | [] => []
  | (k, v) :: bs => '&' :: (blockData k v ++ tailBlocks bs)

/-- splitCh never returns the empty list of pieces. -/
theorem splitCh_ne_nil (sep : Char) (l : List Char) : splitCh sep l ≠ [] := by
  cases l with
  | nil => simp [splitCh]
  | cons c cs =>
    simp only [splitCh]
    split <;> simp

/-- Splitting an append whose first part is separator-free: the first part
fuses with the head piece of the split of the second part. -/
theorem splitCh_append_of_not_mem (sep : Char) (xs ys : List Char)
    (h : sep ∉ xs) :
    splitCh sep (xs ++ ys) =
      (xs ++ (splitCh sep ys).headD []) :: (splitCh sep ys).tail := by
  induction xs with
  | nil =>
    simp only [List.nil_append]
    cases hys : splitCh sep ys with
    | nil => exact absurd hys (splitCh_ne_nil sep ys)
    | cons a t => simp
  | cons a xs ih =>
    have ha : ¬ a = sep := fun hh => h (hh ▸ List.mem_cons_self a xs)
    rw [List.cons_append]
    simp only [splitCh]
    rw [if_neg ha, ih (fun hm => h (List.mem_cons_of_mem a hm))]
    simp

/-- Splitting at a leading separator produces an empty head piece. -/
theorem splitCh_sep_cons (sep : Char) (ys : List Char) :
    splitCh sep (sep :: ys) = [] :: splitCh sep ys := by
  simp [splitCh]

/-- A separator-free list is a single piece. -/
theorem splitCh_single (sep : Char) (v : List Char) (h : sep ∉ v) :
    splitCh sep v = [v] := by
  have h2 := splitCh_append_of_not_mem sep v [] h
  simpa [splitCh] using h2

/-- Peeling one separator-free piece off the front of a split. -/
theorem splitCh_piece (sep : Char) (v rest : List Char) (h : sep ∉ v) :
    splitCh sep (v ++ sep :: rest) = v :: splitCh sep rest := by
  rw [splitCh_append_of_not_mem sep v _ h, splitCh_sep_cons]
  simp

/-- Taking up to the first equals sign of a piece that starts with an
equals-free key returns exactly that key. -/
theorem takeWhile_to_eq (xs v : List Char) (h : '=' ∉ xs) :
    (xs ++ '=' :: v).takeWhile (fun c => c != '=') = xs := by
  induction xs with
  | nil => simp
  | cons a xs ih =>
    have ha : ¬ a = '=' := fun hh => h (hh ▸ List.mem_cons_self a xs)
    rw [List.cons_append,
      List.takeWhile_cons_of_pos (by simpa using ha),
      ih (fun hm => h (List.mem_cons_of_mem a hm))]

/-- Dropping while a predicate holds skips a first part on which it holds
everywhere. -/
theorem dropWhile_append_of_all (p : Char → Bool) (xs ys : List Char)
    (h : ∀ a ∈ xs, p a = true) :
    (xs ++ ys).dropWhile p = ys.dropWhile p := by
  induction xs with
  | nil => simp
  | cons a xs ih =>
    rw [List.cons_append,
      List.dropWhile_cons_of_pos (h a (List.mem_cons_self a xs))]
    exact ih (fun b hb => h b (List.mem_cons_of_mem a hb))

/-- The parameter keys of a query built from an ampersand-and-equals-free
first key, its value, and a list of further key-value blocks: exactly the
keys, in order. -/
theorem keys_of_blocks (k : String) (v : List Char)
    (bs : List (String × List Char))
    (hk : '&' ∉ k.data) (hke : '=' ∉ k.data) (hv : '&' ∉ v)
    (hb : ∀ b ∈ bs, '&' ∉ b.1.data ∧ '=' ∉ b.1.data ∧ '&' ∉ b.2) :
    (splitCh '&' (blockData k v ++ tailBlocks bs)).map
      (fun p => String.mk (p.takeWhile (fun c => c != '='))) =
      k :: bs.map Prod.fst := by
  induction bs generalizing k v with
  | nil =>
    rw [tailBlocks, List.append_nil,
      splitCh_single '&' (blockData k v) (by
        intro hm
        rcases List.mem_append.mp hm with hm1 | hm2
        · exact hk hm1
        · rcases List.mem_cons.mp hm2 with hm3 | hm4
          · exact absurd hm3 (by decide)
          · exact hv hm4)]
    simp only [List.map_cons, List.map_nil]
    rw [blockData, takeWhile_to_eq k.data v hke]
  | cons b bs ih =>
    rw [tailBlocks,
      splitCh_piece '&' (blockData k v) _ (by
        intro hm
        rcases List.mem_append.mp hm with hm1 | hm2
        · exact hk hm1
        · rcases List.mem_cons.mp hm2 with hm3 | hm4
          · exact absurd hm3 (by decide)
          · exact hv hm4),
      List.map_cons, blockData, takeWhile_to_eq k.data v hke,
      ih b.1 b.2 (hb b (List.mem_cons_self b bs)).1
        (hb b (List.mem_cons_self b bs)).2.1
        (hb b (List.mem_cons_self b bs)).2.2
        (fun c hc => hb c (List.mem_cons_of_mem b hc)), List.map_cons]

/-- Pushing data through a urljoin from the fixed base. -/
theorem urljoin_base_data (u : String) :
    (urljoin BASE_URL u).data = "https://api.ingenuity.com".data ++ u.data :=
  rfl

/-- The clinical URL splits at its question mark into host-and-path and the
beginning of the query string. -/
theorem host_clinical_split (x : List Char) :
    "https://api.ingenuity.com".data ++ ("/v1/clinical?state=".data ++ x) =
      "https://api.ingenuity.com/v1/clinical".data ++
        '?' :: ("state=".data ++ x) :=
  rfl


/-- The state template piece splits into key, equals sign and value. -/
theorem state_split (x : List Char) :
    "state=".data ++ x = "state".data ++ '=' :: x :=
  rfl

/-- The start date template piece: ampersand, key, equals sign, value. -/
theorem start_split (x : List Char) :
    "&startReceivedDate=".data ++ x =
      '&' :: ("startReceivedDate".data ++ '=' :: x) :=
  rfl

/-- The end date template piece: ampersand, key, equals sign, value. -/
theorem end_split (x : List Char) :
    "&endReceivedDate=".data ++ x =
      '&' :: ("endReceivedDate".data ++ '=' :: x) :=
  rfl

/-- The sort template piece: ampersand, key, equals sign, value. -/
theorem sort_split (x : List Char) :
    "&sort=".data ++ x = '&' :: ("sort".data ++ '=' :: x) :=
  rfl

/-- The characters of the URL that list_tests builds: host and path, the
question mark, then the state block followed by the blocks of exactly the
non-empty optional filters. -/
theorem list_tests_url_data (state start_date end_date sort_by : String) :
    (list_tests_url state start_date end_date sort_by).data =
      "https://api.ingenuity.com/v1/clinical".data ++
        '?' :: (blockData "state" state.data ++
          tailBlocks
            ((if start_date = "" then []
              else [("startReceivedDate", start_date.data)]) ++
             (if end_date = "" then []
              else [("endReceivedDate", end_date.data)]) ++
             (if sort_by = "" then [] else [("sort", sort_by.data)]))) := by
  by_cases h1 : start_date = "" <;> by_cases h2 : end_date = "" <;>
    by_cases h3 : sort_by = "" <;>
    simp [list_tests_url, h1, h2, h3, String.data_append, urljoin_base_data,
      host_clinical_split, state_split, start_split, end_split, sort_split,
      tailBlocks, blockData, List.append_assoc]

/-- Claim C4 (amended): for every combination of the optional filters of
list_tests whose values are ampersand-free, the request URL contains the
query parameter keys of exactly the supplied date and sort filters, in
order, omitting every unset one - except for the state parameter, which is
always present, with an empty value when the state filter is unset. -/
theorem list_tests_url_param_keys (state start_date end_date sort_by : String)
    (h1 : '&' ∉ state.data) (h2 : '&' ∉ start_date.data)
    (h3 : '&' ∉ end_date.data) (h4 : '&' ∉ sort_by.data) :
    paramKeys (list_tests_url state start_date end_date sort_by) =
      "state" ::
        ((if start_date = "" then [] else ["startReceivedDate"]) ++
         (if end_date = "" then [] else ["endReceivedDate"]) ++
         (if sort_by = "" then [] else ["sort"])) := by
  unfold paramKeys queryChars
  rw [list_tests_url_data,
    dropWhile_append_of_all _ _ _ (by decide),
    List.dropWhile_cons_of_neg (by decide), List.tail_cons]
  by_cases e1 : start_date = "" <;> by_cases e2 : end_date = "" <;>
    by_cases e3 : sort_by = "" <;>
    simp only [e1, e2, e3, if_true, if_false, ite_true, ite_false,
      List.nil_append, List.append_nil] <;>
    rw [keys_of_blocks _ _ _ (by decide) (by decide) h1
      (by intro b hb; fin_cases hb <;>
        exact ⟨of_decide_eq_true rfl, of_decide_eq_true rfl, by assumption⟩)] <;>
    simp

/-- Witness for claim C4: at concrete filter values - state and sort set, a
start date set, the end date unset - the hypotheses hold and the URL keys
are the state key, the start date key and the sort key. -/
theorem list_tests_url_param_keys_witness :
    '&' ∉ ("final" : String).data ∧
    paramKeys (list_tests_url "final" "2020-01-01" "" "receivedDateAsc") =
      "state" ::
        ((if ("2020-01-01" : String) = "" then [] else ["startReceivedDate"]) ++
         (if ("" : String) = "" then [] else ["endReceivedDate"]) ++
         (if ("receivedDateAsc" : String) = "" then [] else ["sort"])) :=
  ⟨by decide, list_tests_url_param_keys "final" "2020-01-01" "" "receivedDateAsc"
    (by decide) (by decide) (by decide) (by decide)⟩

/-- Counterexample to claim C4 as stated: with every optional filter unset,
the request URL still contains the state query parameter key, so the URL
does not contain exactly the query parameters whose filter values were
supplied (that would be no parameter at all). -/
theorem list_tests_url_state_always_present :
    paramKeys (list_tests_url "" "" "" "") = ["state"] := by
  decide

/-- Claim C1 (code bug evaluated): a DataPackage whose access token is the
empty string passes validate_datapackage - which checks only the argument
type, never the token - so upload_datapackage raises no validation error
for it; the call stops with an AttributeError at the temp-file write (the
int file descriptor has no write attribute), as it does for every package,
so the POST is never performed, but not because of token validation. -/
theorem upload_empty_token_no_validation_error :
    upload_datapackage (PyObj.datapackage
      { _access_token := "", _primary_id := "PID-1",
        _secondary_id := "SID-1" }) =
      { result := Except.error (PyError.attributeError
          "int object has no attribute write"),
        posts := [] } :=
  rfl

/-- Claim C2 (code bug evaluated): even a fully well-formed DataPackage is
never POSTed: upload_datapackage validates the argument type and then
raises AttributeError at the temp-file write, so the serialized form is
never written or submitted and no JSON status object is returned. -/
theorem upload_crashes_before_post :
    upload_datapackage (PyObj.datapackage
      { _access_token := "token123", _primary_id := "PID-2",
        _secondary_id := "SID-2" }) =
      { result := Except.error (PyError.attributeError
          "int object has no attribute write"),
        posts := [] } :=
  rfl

/-- Claim C3 (code bug evaluated): constructing a DataPackage with only an
access token and a primary identifier raises TypeError for every choice of
the two values, because init has no default value for secondary_id; the
main block of api.py performs exactly such a two-argument call. -/
theorem datapackage_init_requires_secondary_id
    (access_token primary_id : String) :
    DataPackage_new access_token primary_id none =
      Except.error (PyError.typeError
        "DataPackage.init missing 1 required positional argument: secondary_id") :=
  rfl

/-- Claim C5: for every client identifier and client secret, given a
token-endpoint JSON response carrying an access_token field,
get_access_token returns exactly the value of that field and nothing
else. -/
theorem get_access_token_returns_token_field
    (client_id client_secret : String) (resp : Json) (v : String)
    (h : resp.lookup "access_token" = some v) :
    get_access_token client_id client_secret resp = Except.ok v := by
  simp [get_access_token, h]

/-- Witness for claim C5: a concrete two-field response; the token field
holds tok-123 and that is exactly what is returned. -/
theorem get_access_token_returns_token_field_witness :
    ([("access_token", "tok-123"), ("expires-in", "3600")] : Json).lookup
        "access_token" = some "tok-123" ∧
    get_access_token "id-1" "secret-1"
        [("access_token", "tok-123"), ("expires-in", "3600")] =
      Except.ok "tok-123" :=
  ⟨by decide, get_access_token_returns_token_field "id-1" "secret-1"
    [("access_token", "tok-123"), ("expires-in", "3600")] "tok-123" (by decide)⟩

/-- Claim C6: for every DataPackage, to_xml returns exactly the primary
identifier - the empty string with the identifier concatenated on - and
performs no XML generation. -/
theorem to_xml_eq_primary_id (dp : DataPackage) :
    DataPackage.to_xml dp = dp._primary_id :=
  rfl

/-- Claim C7: for every identifier and every current date, when
get_report_pdf is called with no output filename (the empty default), the
file it writes is named identifier, underscore, the current date in
yyyy-mm-dd, and the .pdf extension, and the path it returns is the absolute
form of that same name. -/
theorem get_report_pdf_default_filename (cwd : String) (today : Date)
    (access_token qci_id : String) (resp_content : List Nat) :
    (get_report_pdf cwd today access_token qci_id resp_content
        "").written.path =
      qci_id ++ "_" ++ strftime_Ymd today ++ ".pdf" ∧
    (get_report_pdf cwd today access_token qci_id resp_content "").returned =
      os_path_abspath cwd
        (get_report_pdf cwd today access_token qci_id resp_content
          "").written.path :=
  ⟨rfl, rfl⟩

/-- Claim C8: a DataPackage is never mutated after construction: the
access_token property read, to_xml, validate, the str dunder, and the
upload path that reads the package all leave the receiver - hence all
three attributes - unchanged. -/
theorem datapackage_never_mutated (dp : DataPackage) (debug : Bool) :
    (access_token_run dp).2 = dp ∧ (to_xml_run dp).2 = dp ∧
    (validate_run dp debug).2 = dp ∧ (str_run dp).2 = dp ∧
    (upload_run dp).2 = dp :=
  ⟨rfl, rfl, rfl, rfl, rfl⟩

/-- Claim C9: validate called with debug false never returns True for any
package: it returns False when the access token is empty and None when it
is non-empty, so no caller can obtain a positive confirmation of
validity. -/
theorem validate_no_debug_never_true (dp : DataPackage) :
    DataPackage.validate dp false ≠ Except.ok (some true) ∧
    (dp._access_token = "" →
      DataPackage.validate dp false = Except.ok (some false)) ∧
    (dp._access_token ≠ "" →
      DataPackage.validate dp false = Except.ok none) := by
  by_cases h : dp._access_token = "" <;>
    simp [DataPackage.validate, DataPackage.access_token, h]

/-- Witness for claim C9: a package with an empty token yields False, one
with a non-empty token yields None. -/
theorem validate_no_debug_never_true_witness :
    DataPackage.validate
        { _access_token := "", _primary_id := "P-1", _secondary_id := "S-1" }
        false = Except.ok (some false) ∧
    DataPackage.validate
        { _access_token := "tok-1", _primary_id := "P-1",
          _secondary_id := "S-1" }
        false = Except.ok none :=
  ⟨(validate_no_debug_never_true
      { _access_token := "", _primary_id := "P-1",
        _secondary_id := "S-1" }).2.1 rfl,
   (validate_no_debug_never_true
      { _access_token := "tok-1", _primary_id := "P-1",
        _secondary_id := "S-1" }).2.2 (by decide)⟩

/-- Claim C10: every operation that reads the attribute name primary_id
raises AttributeError rather than producing the intended ValueError or
string: the debug branch of validate on a package with an empty access
token, and the str dunder on any package, because the class defines only
the private field _primary_id and no primary_id accessor. -/
theorem primary_id_lookup_raises (dp : DataPackage) :
    (dp._access_token = "" →
      DataPackage.validate dp true = Except.error (PyError.attributeError
        "DataPackage object has no attribute primary_id")) ∧
    DataPackage.str dp = Except.error (PyError.attributeError
      "DataPackage object has no attribute primary_id") := by
  obtain ⟨a, p, s⟩ := dp
  refine ⟨fun h => ?_, rfl⟩
  have h2 : a = "" := h
  subst h2
  rfl

/-- Witness for claim C10: on a concrete package with an empty token, the
debug validate call and the str dunder both raise the AttributeError for
primary_id. -/
theorem primary_id_lookup_raises_witness :
    DataPackage.validate
        { _access_token := "", _primary_id := "P-2", _secondary_id := "S-2" }
        true = Except.error (PyError.attributeError
          "DataPackage object has no attribute primary_id") ∧
    DataPackage.str
        { _access_token := "", _primary_id := "P-2",
          _secondary_id := "S-2" } =
      Except.error (PyError.attributeError
        "DataPackage object has no attribute primary_id") :=
  ⟨(primary_id_lookup_raises
      { _access_token := "", _primary_id := "P-2",
        _secondary_id := "S-2" }).1 rfl,
   (primary_id_lookup_raises
      { _access_token := "", _primary_id := "P-2",
        _secondary_id := "S-2" }).2⟩
